import Mathlib

/-
Verification of the authenticated SmartThings client core
(`lib/SmartThings.js`): OAuth token lifecycle, the 401 refresh
interceptor with its pending-request queue, bounded retry with backoff,
and the TTL/LRU status cache with single-flight fetch deduplication.

The JavaScript is promise-based and single-threaded: each handler runs
synchronously between `await` points.  The embedding therefore models
each synchronous code section as a pure function on an explicit state,
network responses as oracle arguments, and a promise by its eventual
settlement.  Counters (`refreshCalls`, `apiCalls`, `fetchCalls`, ...)
record how many network requests a run issues.
-/

namespace SmartThingsAC

/-- An OAuth credential as parsed from the token endpoint / token file.
Either field may be absent in the parsed JSON, hence `Option`. -/
structure Tokens where
  access_token : Option String
  refresh_token : Option String
deriving DecidableEq

/-- Errors observable from the client core.  `httpStatus` is an axios
error carrying a response status; `networkError` is an axios error with
no response, carrying the Node/axios error code (`err.code`: for
example `"ECONNABORTED"` for a timeout - this client sets
`timeout: 10000` -, `"ERR_CANCELED"` for a cancellation,
`"ECONNRESET"`, `"ENOTFOUND"`; `none` when the error has no code).
The remaining constructors are the `throw` sites of `SmartThings.js`
(missing refresh token, `fs.writeFile` failure, the wrapped
initial-exchange failure, and the wrapped status-fetch failure). -/
inductive STError
  | httpStatus (status : Nat)
  | networkError (code : Option String)
  | noRefreshToken
  | persistenceError
  | exchangeFailed
  | statusFetchFailed (deviceId : String)
deriving DecidableEq

instance {ε α : Type} [DecidableEq ε] [DecidableEq α] : DecidableEq (Except ε α) := by
  intro a b
  cases a <;> cases b
  case error.error x y =>
    exact match decEq x y with
    | isTrue h => isTrue (by rw [h])
    | isFalse h => isFalse (by intro hc; cases hc; exact h rfl)
  case ok.ok x y =>
    exact match decEq x y with
    | isTrue h => isTrue (by rw [h])
    | isFalse h => isFalse (by intro hc; cases hc; exact h rfl)
  case error.ok x y => exact isFalse (by intro hc; cases hc)
  case ok.error x y => exact isFalse (by intro hc; cases hc)

/-- JavaScript truthiness of an optional string: `undefined`, `null`
and the empty string are falsy (`if (this.tokens?.refresh_token)`). -/
def truthyStr : Option String → Bool
  | none => false
  | some s => s != ""

/-- Mutable instance state of the `SmartThings` class that the token /
interceptor code touches, plus counters of issued network requests.
`pendingRequests` holds (identifiers of) the queued 401 callers, in
queue order.  `refreshCalls` counts POSTs to the token endpoint made by
`refreshToken`; `persistAttempts` counts `fs.writeFile` attempts in
`_saveTokens`; `apiCalls` counts requests issued through
`this.client`. -/
structure AuthState where
  tokens : Option Tokens
  isRefreshing : Bool
  pendingRequests : List Nat
  refreshCalls : Nat
  persistAttempts : Nat
  apiCalls : Nat
deriving DecidableEq

/-- Lines 171-175, `_saveTokens(tokens)`: assigns `this.tokens = tokens`
first, then awaits `fs.writeFile`.  The in-memory credential is thus
updated even when the write fails, and a write failure rejects the
promise (there is no catch inside `_saveTokens`).  `persistOk` is the
oracle for the outcome of the write. -/
def _saveTokens (st : AuthState) (t : Tokens) (persistOk : Bool) :
    Except STError Unit × AuthState :=
  let st1 := { st with tokens := some t, persistAttempts := st.persistAttempts + 1 }
  if persistOk then (.ok (), st1) else (.error .persistenceError, st1)

/-- Lines 148-169, `refreshToken()`: throws `'리프레시 토큰 없음'` when
`this.tokens?.refresh_token` is falsy (before any network request);
otherwise POSTs to the token endpoint (`resp` is the oracle for that
call), and on a 2xx response runs `_saveTokens(resp.data)` and returns
`this.tokens.access_token`.  Both a network failure and a
`_saveTokens` failure are rethrown by the catch. -/
def refreshTokenRun (st : AuthState) (resp : Except STError Tokens) (persistOk : Bool) :
    Except STError (Option String) × AuthState :=
  if truthyStr (st.tokens.bind Tokens.refresh_token) then
    let st1 := { st with refreshCalls := st.refreshCalls + 1 }
    match resp with
    | .error e => (.error e, st1)
    | .ok t =>
      match _saveTokens st1 t persistOk with
      | (.ok _, st2) => (.ok t.access_token, st2)
      | (.error e2, st2) => (.error e2, st2)
  else (.error .noRefreshToken, st)

/-- Lines 126-146, `getInitialTokens(code)`: POSTs the authorization
code to the token endpoint and runs `_saveTokens` on the response body.
Any failure inside the `try` (the POST itself or `_saveTokens`) is
caught and replaced by the fixed `'초기 토큰 발급 실패...'` error. -/
def getInitialTokensRun (st : AuthState) (resp : Except STError Tokens) (persistOk : Bool) :
    Except STError Unit × AuthState :=
  match resp with
  | .error _ => (.error .exchangeFailed, st)
  | .ok t =>
    match _saveTokens st t persistOk with
    | (.ok _, st2) => (.ok (), st2)
    | (.error _, st2) => (.error .exchangeFailed, st2)

/-- What the response-error interceptor does with one rejected request
before any suspension: the caller either becomes the refresher, is
queued behind the running refresh, or has its error passed through to
`Promise.reject`. -/
inductive InterceptAction
  | becameRefresher
  | queued
  | rejected (e : STError)
deriving DecidableEq

/-- Lines 72-104, the synchronous prefix of the response-error
interceptor for one request: on a 401 whose config has not been marked
`_retry`, it sets `original._retry = true` and then either becomes the
refresher (setting `this.isRefreshing = true`; the `refreshToken()`
call itself is modelled by `refresherContinue`) or pushes a waiter onto
`this.pendingRequests`.  Every other error falls through to
`Promise.reject(error)`.  Returns the action, the request's `_retry`
flag after the handler, and the new state. -/
def onResponseError (st : AuthState) (reqId : Nat) (e : STError) (alreadyRetried : Bool) :
    InterceptAction × Bool × AuthState :=
  if e = .httpStatus 401 ∧ alreadyRetried = false then
    if st.isRefreshing = false then
      (.becameRefresher, true, { st with isRefreshing := true })
    else
      (.queued, true, { st with pendingRequests := st.pendingRequests ++ [reqId] })
  else
    (.rejected e, alreadyRetried, st)

/-- Lines 77-90 resumed after `await this.refreshToken()` together with
lines 109-112 (`_flushWaiters`): on success the refresher clears
`isRefreshing`, resolves every queued waiter with the new access token
(each waiter replays its original request with that token), and replays
its own request; on failure it clears `isRefreshing` and rejects every
waiter and itself with the refresh error.  Returns the refresher's own
outcome, the outcome delivered to each waiter (in queue order), and the
final state. -/
def refresherContinue (st : AuthState) (resp : Except STError Tokens) (persistOk : Bool) :
    Except STError (Option String) × List (Nat × Except STError (Option String)) × AuthState :=
  match refreshTokenRun st resp persistOk with
  | (.ok newAccess, st1) =>
    (.ok newAccess, st1.pendingRequests.map (fun i => (i, Except.ok newAccess)),
      { st1 with isRefreshing := false, pendingRequests := [] })
  | (.error e, st1) =>
    (.error e, st1.pendingRequests.map (fun i => (i, Except.error e)),
      { st1 with isRefreshing := false, pendingRequests := [] })

/-- One 401 arrival (a request whose config is not yet marked
`_retry`), keeping only the state. -/
def arrive401 (st : AuthState) (reqId : Nat) : InterceptAction × AuthState :=
  let r := onResponseError st reqId (.httpStatus 401) false
  (r.1, r.2.2)

/-- A burst of simultaneous 401s: the rejection handlers of the listed
requests run back to back on the event loop, none of them retried
before, with the refresh network call still pending throughout. -/
def burst401 (st : AuthState) : List Nat → List InterceptAction × AuthState
  | [] => ([], st)
  | i :: rest =>
    let (a, st1) := arrive401 st i
    let (as, st2) := burst401 st1 rest
    (a :: as, st2)

/-- Lines 178-186, `getDevices()`: one GET through `this.client` (so
`apiCalls` grows by one), returning `res.data.items || []` on success
and rethrowing the error on failure. -/
def getDevicesRun (st : AuthState) (resp : Except STError (Option (List String))) :
    Except STError (List String) × AuthState :=
  let st1 := { st with apiCalls := st.apiCalls + 1 }
  match resp with
  | .ok itemsOpt => (.ok (itemsOpt.getD []), st1)
  | .error e => (.error e, st1)

/-! Lines 38-48: the `axios-retry` configuration installed on
`this.client`: `retries: 3`, `retryDelay: (n) => n * 1000`, and
`retryCondition: (err) => axiosRetry.isNetworkOrIdempotentRequestError(err)
|| s === 429 || (s >= 500 && s < 600)` with `s = err.response?.status`.
The library predicates are modelled from the `axios-retry` sources. -/

/-- The configured retry delay for the `n`-th retry. -/
def retryDelay (n : Nat) : Nat := n * 1000

/-- HTTP request methods as axios records them (lowercased) in
`error.config.method`.  This client issues GETs (`getDevices`,
`getStatus`) and POSTs (`sendCommand`, token requests are on a separate
axios instance without retry). -/
inductive HttpMethod
  | get | head | options | put | delete | post
deriving DecidableEq

/-- The deny list of the `is-retry-allowed` package: Node error codes
that `axios-retry.isNetworkError` refuses to retry even though no
response was received. -/
def retryAllowedDenyList : List String :=
  ["ENOTFOUND", "ENETUNREACH",
   "UNABLE_TO_GET_ISSUER_CERT", "UNABLE_TO_GET_CRL",
   "UNABLE_TO_DECRYPT_CERT_SIGNATURE", "UNABLE_TO_DECRYPT_CRL_SIGNATURE",
   "UNABLE_TO_DECODE_ISSUER_PUBLIC_KEY", "CERT_SIGNATURE_FAILURE",
   "CRL_SIGNATURE_FAILURE", "CERT_NOT_YET_VALID", "CERT_HAS_EXPIRED",
   "CRL_NOT_YET_VALID", "CRL_HAS_EXPIRED", "ERROR_IN_CERT_NOT_BEFORE_FIELD",
   "ERROR_IN_CERT_NOT_AFTER_FIELD", "ERROR_IN_CRL_LAST_UPDATE_FIELD",
   "ERROR_IN_CRL_NEXT_UPDATE_FIELD", "OUT_OF_MEM",
   "DEPTH_ZERO_SELF_SIGNED_CERT", "SELF_SIGNED_CERT_IN_CHAIN",
   "UNABLE_TO_GET_ISSUER_CERT_LOCALLY", "UNABLE_TO_VERIFY_LEAF_SIGNATURE",
   "CERT_CHAIN_TOO_LONG", "CERT_REVOKED", "INVALID_CA",
   "PATH_LENGTH_EXCEEDED", "INVALID_PURPOSE", "CERT_UNTRUSTED",
   "CERT_REJECTED", "HOSTNAME_MISMATCH"]

/-- `axios-retry.isNetworkError`: false when a response was received;
false when the error carries no code; false for the excluded codes
`ERR_CANCELED` and `ECONNABORTED` (the timeout code - this client sets
`timeout: 10000`); otherwise deferred to `is-retry-allowed`'s deny
list. -/
def isNetworkError (e : STError) : Bool :=
  match e with
  | .networkError (some code) =>
    !(code == "ERR_CANCELED" || code == "ECONNABORTED")
      && !(retryAllowedDenyList.contains code)
  | _ => false

/-- `axios-retry.isRetryableError`: not a timeout (`ECONNABORTED`), and
either no response was received or the response status is 5xx. -/
def isRetryableError (e : STError) : Bool :=
  match e with
  | .networkError code => code != some "ECONNABORTED"
  | .httpStatus s => decide (500 ≤ s ∧ s < 600)
  | _ => false

/-- The methods `axios-retry` treats as idempotent. -/
def idempotentMethods : List HttpMethod := [.get, .head, .options, .put, .delete]

/-- `axios-retry.isIdempotentRequestError` for a request of the given
method (the method is always present on this client's requests). -/
def isIdempotentRequestError (method : HttpMethod) (e : STError) : Bool :=
  isRetryableError e && idempotentMethods.contains method

/-- `axios-retry.isNetworkOrIdempotentRequestError`. -/
def isNetworkOrIdempotentRequestError (method : HttpMethod) (e : STError) : Bool :=
  isNetworkError e || isIdempotentRequestError method e

/-- Lines 44-47, the configured `retryCondition`:
`axiosRetry.isNetworkOrIdempotentRequestError(err) || s === 429 ||
(s >= 500 && s < 600)` where `s = err.response?.status` is `undefined`
for a no-response error, making both status comparisons false. -/
def retryCondition (method : HttpMethod) (e : STError) : Bool :=
  isNetworkOrIdempotentRequestError method e ||
    (match e with
     | .httpStatus s => decide (s = 429 ∨ (500 ≤ s ∧ s < 600))
     | _ => false)

/-- The `axios-retry` loop around one request of the given method:
attempt number `attempt` (1-based) with `fuel` retries still allowed.
A failed attempt whose error satisfies `retryCondition` is retried
after `retryDelay` of the retry's number (which equals the number of
the attempt that just failed) while retries remain; otherwise the error
surfaces.  Returns the final outcome, the total number of requests
issued, and the list of delays waited. -/
def retryLoop (method : HttpMethod) (transport : Nat → Except STError α) :
    (attempt fuel : Nat) → Except STError α × Nat × List Nat
  | attempt, 0 => (transport attempt, 1, [])
  | attempt, fuel + 1 =>
    match transport attempt with
    | .ok v => (.ok v, 1, [])
    | .error e =>
      if retryCondition method e then
        let r := retryLoop method transport (attempt + 1) fuel
        (r.1, r.2.1 + 1, retryDelay attempt :: r.2.2)
      else (.error e, 1, [])

/-- One request through `this.client`'s retry layer, with the
configured budget of 3 retries. -/
def clientRequest (method : HttpMethod) (transport : Nat → Except STError α) :
    Except STError α × Nat × List Nat :=
  retryLoop method transport 1 3

/-! The status cache, line 53: `new LRUCache({ max: 100, ttl: 5 * 1000 })`,
modelled after `lru-cache` semantics: an entry records the time it was
written; `get` of an entry whose age strictly exceeds `ttl` returns
`undefined` and removes the stale entry; a non-stale `get` moves the
entry to most-recently-used; `set` writes at most-recently-used and, on
overflow, evicts the least-recently-used entry.  `entries` is kept in
recency order, most recent first. -/

/-- One cache slot: key, value, and the write time (`start`). -/
structure LRUEntry (V : Type) where
  key : String
  val : V
  start : Nat
deriving DecidableEq

/-- The `lru-cache` instance: `max` entries, entries stale beyond
`ttl`. -/
structure LRU (V : Type) where
  max : Nat
  ttl : Nat
  entries : List (LRUEntry V)
deriving DecidableEq

/-- Remove every slot with the given key. -/
def removeKey (k : String) (l : List (LRUEntry V)) : List (LRUEntry V) :=
  l.filter (fun e => e.key != k)

/-- `cache.get(k)` at time `now`: `undefined` on a missing key; a stale
entry (age strictly above `ttl`) is deleted and `undefined` returned; a
live entry is returned and moved to most-recently-used. -/
def LRU.get (c : LRU V) (k : String) (now : Nat) : Option V × LRU V :=
  match c.entries.find? (fun e => e.key == k) with
  | none => (none, c)
  | some e =>
    if now - e.start > c.ttl then
      (none, { c with entries := removeKey k c.entries })
    else
      (some e.val, { c with entries := ⟨k, e.val, e.start⟩ :: removeKey k c.entries })

/-- `cache.set(k, v)` at time `now`: writes the entry at
most-recently-used with a fresh start time, and keeps at most `max`
entries by evicting from the least-recently-used end. -/
def LRU.set (c : LRU V) (k : String) (v : V) (now : Nat) : LRU V :=
  { c with entries := (⟨k, v, now⟩ :: removeKey k c.entries).take c.max }

/-- `cache.delete(k)`. -/
def LRU.delete (c : LRU V) (k : String) : LRU V :=
  { c with entries := removeKey k c.entries }

/-- A JSON attribute value as it occurs in a status payload. -/
inductive JsVal
  | str (s : String)
  | num (n : Int)
deriving DecidableEq

/-- One capability's attribute object: its `value` field, `none` when
the field is `null` or absent. -/
structure AttrObj where
  value : Option JsVal
deriving DecidableEq

/-- A capability object: attribute name to attribute object. -/
abbrev CapObj := List (String × AttrObj)

/-- A status snapshot as cached by `getStatus`: the
`components.main` object, mapping capability keys to capability
objects. -/
abbrev Snapshot := List (String × CapObj)

/-- JavaScript property lookup `o[k]` on an object, `none` for an
absent property. -/
def jsLookup (o : List (String × α)) (k : String) : Option α :=
  (o.find? (fun p => p.1 == k)).map Prod.snd

/-- The `components` object of a status response body. -/
structure Components where
  main : Option Snapshot
deriving DecidableEq

/-- A status response body; `components` may be absent. -/
structure RespBody where
  components : Option Components
deriving DecidableEq

/-- Line 198: `res.data?.components?.main || {}` - the cached snapshot
is the `components.main` sub-object, with the empty object substituted
when any link of the path is absent. -/
def extractMain (data : Option RespBody) : Snapshot :=
  match data with
  | none => []
  | some b =>
    match b.components with
    | none => []
    | some c => c.main.getD []

/-- The status-fetch side of the `SmartThings` instance: the LRU cache
(`this.cache`), the keys of `this.statusPromises` (device ids with an
in-flight fetch), and counters of status GETs and command POSTs
issued. -/
structure FetchState where
  cache : LRU Snapshot
  statusPromises : List String
  fetchCalls : Nat
  commandCalls : Nat
deriving DecidableEq

/-- The initial cache of line 53. -/
def initialCache : LRU Snapshot := { max := 100, ttl := 5 * 1000, entries := [] }

/-- What the synchronous prefix of one `getStatus(deviceId)` call does:
return the cached snapshot, join the in-flight fetch's shared promise,
or start (and register) a new fetch. -/
inductive FetchArrival
  | hit (s : Snapshot)
  | joined
  | started
deriving DecidableEq

/-- Lines 188-196 and 208-209, the synchronous prefix of
`getStatus(deviceId)`: look up `status-${deviceId}` in the cache and
return a (truthy) hit; otherwise return the registered promise if
`statusPromises` has one for `deviceId`; otherwise issue the GET (one
network fetch) and register its promise under `deviceId`. -/
def getStatusArrive (st : FetchState) (id : String) (now : Nat) :
    FetchArrival × FetchState :=
  let g := st.cache.get ("status-" ++ id) now
  match g.1 with
  | some s => (.hit s, { st with cache := g.2 })
  | none =>
    if st.statusPromises.contains id then
      (.joined, { st with cache := g.2 })
    else
      (.started, { st with cache := g.2,
                           statusPromises := id :: st.statusPromises,
                           fetchCalls := st.fetchCalls + 1 })

/-- Lines 197-206, the settlement of the fetch started for `deviceId`:
on success the snapshot `extractMain` of the body is cached under
`status-${deviceId}` and returned; on failure the error is replaced by
the fixed `'[id] 상태 조회에 실패했습니다.'` error; in both cases the
`finally` removes the `statusPromises` entry for `deviceId`. -/
def fetchComplete (st : FetchState) (id : String)
    (resp : Except STError (Option RespBody)) (now : Nat) :
    Except STError Snapshot × FetchState :=
  match resp with
  | .ok body =>
    let data := extractMain body
    (.ok data, { st with cache := st.cache.set ("status-" ++ id) data now,
                         statusPromises := st.statusPromises.filter (fun x => x != id) })
  | .error _ =>
    (.error (.statusFetchFailed id),
      { st with statusPromises := st.statusPromises.filter (fun x => x != id) })

/-- One complete sequential `getStatus(deviceId)` call: the arrival
prefix followed, for a fresh fetch, by its settlement.  `pending` is
the settlement of the shared in-flight promise awaited in the `joined`
case; `resp` is the network oracle for a newly started fetch. -/
def getStatusRun (st : FetchState) (id : String) (now : Nat)
    (pending : Except STError Snapshot) (resp : Except STError (Option RespBody)) :
    Except STError Snapshot × FetchState :=
  match getStatusArrive st id now with
  | (.hit s, st1) => (.ok s, st1)
  | (.joined, st1) => (pending, st1)
  | (.started, st1) => fetchComplete st1 id resp now

/-- Lines 212-222, `sendCommand(deviceId, command)`: deletes the
`status-${deviceId}` cache entry first, then POSTs the command through
`this.client` (one command network call); a failed POST rethrows.  The
command payload itself is opaque to this model. -/
def sendCommandRun (st : FetchState) (id : String) (resp : Except STError Unit) :
    Except STError Unit × FetchState :=
  let st1 := { st with cache := st.cache.delete ("status-" ++ id),
                       commandCalls := st.commandCalls + 1 }
  match resp with
  | .ok _ => (.ok (), st1)
  | .error e => (.error e, st1)

/-- JavaScript `String.prototype.split('.')`, by structural recursion
on the character list (`\x7b"a.b" -> ["a","b"], "abc" -> ["abc"]\x7d`,
matching the JS semantics on every input). -/
def splitDotAux : List Char → List Char → List String
  | [], acc => [String.mk acc.reverse]
  | c :: rest, acc =>
    if c = '.' then String.mk acc.reverse :: splitDotAux rest []
    else splitDotAux rest (c :: acc)

/-- Line 229: `capability.split('.').pop()` - the last segment of the
capability id (the default of `getLastD` is unreachable: a JS split
never returns an empty array). -/
def shortKeyOf (capability : String) : String :=
  (splitDotAux capability.toList []).getLastD capability

/-- Lines 229-233, the extraction step of `_getCap` on a snapshot `s`:
`const obj = s[shortKey] || s[capability]; const v =
obj?.[attribute]?.value; return v == null ? def : v;`. -/
def getCapFromSnapshot (s : Snapshot) (capability attr : String) (dflt : JsVal) : JsVal :=
  let obj := (jsLookup s (shortKeyOf capability)).orElse (fun _ => jsLookup s capability)
  match obj with
  | none => dflt
  | some o =>
    match jsLookup o attr with
    | none => dflt
    | some a =>
      match a.value with
      | none => dflt
      | some v => v

/-- Lines 225-234, `_getCap(deviceId, capability, attribute, def)`:
awaits `getStatus(deviceId)` and applies the extraction step to the
returned snapshot; a `getStatus` failure propagates. -/
def _getCapRun (st : FetchState) (id : String) (now : Nat)
    (pending : Except STError Snapshot) (resp : Except STError (Option RespBody))
    (capability attr : String) (dflt : JsVal) :
    Except STError JsVal × FetchState :=
  match getStatusRun st id now pending resp with
  | (.ok s, st1) => (.ok (getCapFromSnapshot s capability attr dflt), st1)
  | (.error e, st1) => (.error e, st1)

/-- A burst of `n` concurrent `getStatus(id)` calls: their synchronous
prefixes run back to back on the event loop before the fetch (if any)
settles. -/
def statusBurst (st : FetchState) (id : String) (now : Nat) :
    Nat → List FetchArrival × FetchState
  | 0 => ([], st)
  | n + 1 =>
    let (a, st1) := getStatusArrive st id now
    let (as, st2) := statusBurst st1 id now n
    (a :: as, st2)

/-- The value each caller of a `statusBurst` eventually receives once
the fetch settles: a cache hit returns the cached snapshot at once;
the starting caller and every joining caller await the one registered
promise, whose settlement is `fetchComplete`. -/
def burstResults (st : FetchState) (id : String) (now : Nat) (n : Nat)
    (resp : Except STError (Option RespBody)) (nowC : Nat) :
    List (Except STError Snapshot) × FetchState :=
  let b := statusBurst st id now n
  let c := fetchComplete b.2 id resp nowC
  (b.1.map (fun a => match a with
    | .hit s => .ok s
    | .joined => c.1
    | .started => c.1), c.2)

/-- An idle authenticated session (concrete input for witnesses). -/
def c1Start : AuthState :=
  { tokens := some ⟨some "A1", some "R1"⟩, isRefreshing := false,
    pendingRequests := [], refreshCalls := 0, persistAttempts := 0, apiCalls := 0 }

/-- A session in mid-refresh with one queued waiter (request 2),
about to see its refresh fail. -/
def c4MidRefresh : AuthState :=
  { tokens := some ⟨some "A1", some "R1"⟩, isRefreshing := true,
    pendingRequests := [2], refreshCalls := 0, persistAttempts := 0, apiCalls := 0 }

/-- The session state right after that refresh fails (the token
endpoint answered 400, e.g. `invalid_grant`). -/
def c4AfterFailure : AuthState :=
  (refresherContinue c4MidRefresh (.error (.httpStatus 400)) true).2.2

/-- An idle authenticated session used for the persistence-failure
scenario. -/
def c5State : AuthState :=
  { tokens := some ⟨some "A1", some "R1"⟩, isRefreshing := false,
    pendingRequests := [], refreshCalls := 0, persistAttempts := 0, apiCalls := 0 }

/-- The fresh credential returned by the token endpoint in that
scenario. -/
def c5NewTokens : Tokens := ⟨some "A2", some "R2"⟩

/-- The status cache filled to capacity: keys `status-0` ... `status-99`
written at times 0 ... 99 (so `status-0` is the oldest entry). -/
def c8Filled : LRU Snapshot :=
  (List.range 100).foldl (fun c i => c.set ("status-" ++ toString i) [] i) initialCache

/-- The full cache after a read of `status-0` at time 100: the oldest
entry becomes the most recently used one. -/
def c8Touched : LRU Snapshot := (c8Filled.get "status-0" 100).2

/-- The cache after inserting a 101st key at time 101, forcing an
eviction. -/
def c8After : LRU Snapshot := c8Touched.set "status-100" [] 101

/-- An empty fetch state (concrete input for witnesses). -/
def emptyFetchState : FetchState := ⟨initialCache, [], 0, 0⟩

/-- A cache holding one fresh snapshot for device `dev` (concrete input
for witnesses). -/
def c6Cache : LRU Snapshot :=
  { max := 100, ttl := 5 * 1000, entries := [⟨"status-dev", [("switch", [])], 0⟩] }

/-- A fetch state whose cache holds that snapshot. -/
def c6State : FetchState := ⟨c6Cache, [], 0, 0⟩

/-- A two-slot cache: `status-a` written at time 1 (most recently
used), `status-b` written at time 0 (least recently used).  Concrete
input for witnesses. -/
def c8SmallCache : LRU Snapshot :=
  { max := 2, ttl := 5 * 1000,
    entries := [⟨"status-a", [], 1⟩, ⟨"status-b", [], 0⟩] }

/-- A snapshot exposing `autoCleaningMode` under its short key, as the
SmartThings payload does.  Concrete input for witnesses. -/
def c9Snapshot : Snapshot :=
  [("autoCleaningMode", [("autoCleaningMode", ⟨some (.str "on")⟩)])]

/-- Claim C3: a retry caused by an authorization failure happens at most
once per request.  First conjunct: a request whose config already
carries `_retry = true` (it has been replayed once) and receives a
second 401 is rejected - the error surfaces to its caller, the state is
untouched (it is neither appended to `pendingRequests` nor allowed to
start another refresh).  Second conjunct: any 401 handled on a
not-yet-retried request marks its config `_retry := true` before it is
queued or refreshed, so its replay necessarily carries the flag. -/
theorem replay_at_most_once :
    ∀ (st : AuthState) (reqId : Nat),
      onResponseError st reqId (.httpStatus 401) true
        = (.rejected (.httpStatus 401), true, st) ∧
      (onResponseError st reqId (.httpStatus 401) false).2.1 = true := by
  intro st reqId
  refine ⟨by simp [onResponseError], ?_⟩
  by_cases h : st.isRefreshing = false <;> simp [onResponseError, h]

/-- Claim C4 counterexample: the code has no fail-fast `Unauthenticated`
state.  In the concrete session state reached right after a refresh
failure, `getDevices` still issues its network call (`apiCalls` grows)
and even succeeds, instead of failing immediately with a
re-authorization error and no network call; moreover, a fresh 401
starts a new refresh attempt even though no new authorization code was
exchanged. -/
theorem no_failfast_after_refresh_failure :
    c4AfterFailure.isRefreshing = false ∧
    (getDevicesRun c4AfterFailure (.ok (some ["d1"]))).1 = .ok ["d1"] ∧
    (getDevicesRun c4AfterFailure (.ok (some ["d1"]))).2.apiCalls
      = c4AfterFailure.apiCalls + 1 ∧
    (onResponseError c4AfterFailure 3 (.httpStatus 401) false).1 = .becameRefresher := by
  refine ⟨by decide, by decide, by decide, by decide⟩

/-- Claim C4 (amended): after a refresh failure the session is not
blocked.  The refresher clears `isRefreshing` and rejects itself and
every queued caller with the same error; subsequent operations attempt
their network calls normally (`getDevices` always issues its GET), and
a later 401 on a not-yet-retried request triggers a new refresh
attempt.  No fail-fast state and no `ReauthorizationRequiredError`
exist in the code. -/
theorem after_refresh_failure_operations_proceed
    (st : AuthState) (e0 : STError) (persistOk : Bool) :
    ∃ e : STError,
      (refresherContinue st (.error e0) persistOk).1 = .error e ∧
      (refresherContinue st (.error e0) persistOk).2.1
        = st.pendingRequests.map (fun i => (i, Except.error e)) ∧
      (refresherContinue st (.error e0) persistOk).2.2.isRefreshing = false ∧
      (∀ resp,
        (getDevicesRun (refresherContinue st (.error e0) persistOk).2.2 resp).2.apiCalls
          = (refresherContinue st (.error e0) persistOk).2.2.apiCalls + 1) ∧
      (∀ reqId,
        (onResponseError (refresherContinue st (.error e0) persistOk).2.2 reqId
          (.httpStatus 401) false).1 = .becameRefresher) := by
  by_cases h : truthyStr (st.tokens.bind Tokens.refresh_token) = true
  · refine ⟨e0, ?_⟩
    simp [refresherContinue, refreshTokenRun, h, onResponseError]
    intro resp
    cases resp <;> simp [getDevicesRun]
  · refine ⟨.noRefreshToken, ?_⟩
    simp only [Bool.not_eq_true] at h
    simp [refresherContinue, refreshTokenRun, h, onResponseError]
    intro resp
    cases resp <;> simp [getDevicesRun]

/-- Claim C5 counterexample: when the token endpoint answers the refresh
with a fresh credential but persisting it fails, `refreshToken` does
not report success - `_saveTokens` rejects, the catch in `refreshToken`
rethrows, and the caller sees the persistence error, even though the
in-memory credential was already replaced (and the write was
attempted). -/
theorem refresh_persist_failure_reports_failure :
    (refreshTokenRun c5State (.ok c5NewTokens) false).1 = .error .persistenceError ∧
    (refreshTokenRun c5State (.ok c5NewTokens) false).2.tokens = some c5NewTokens ∧
    (refreshTokenRun c5State (.ok c5NewTokens) false).2.persistAttempts = 1 := by
  refine ⟨by decide, by decide, by decide⟩

/-- Claim C5 (amended): on every successful token exchange or refresh
network response, the new credential is stored in memory and handed to
persistence (`fs.writeFile` is attempted) before the operation returns;
if persisting succeeds the operation returns the new credential, but if
persisting fails the operation reports failure - the refresh rejects
with the write error and the exchange with its fixed exchange-failure
error - while the in-memory credential remains updated. -/
theorem token_persist_before_return (st : AuthState) (t : Tokens) (persistOk : Bool)
    (hrt : truthyStr (st.tokens.bind Tokens.refresh_token) = true) :
    ((refreshTokenRun st (.ok t) persistOk).2.persistAttempts = st.persistAttempts + 1) ∧
    ((refreshTokenRun st (.ok t) persistOk).2.tokens = some t) ∧
    (persistOk = true → (refreshTokenRun st (.ok t) persistOk).1 = .ok t.access_token) ∧
    (persistOk = false →
      (refreshTokenRun st (.ok t) persistOk).1 = .error .persistenceError) ∧
    ((getInitialTokensRun st (.ok t) persistOk).2.persistAttempts
      = st.persistAttempts + 1) ∧
    ((getInitialTokensRun st (.ok t) persistOk).2.tokens = some t) ∧
    (persistOk = true → (getInitialTokensRun st (.ok t) persistOk).1 = .ok ()) ∧
    (persistOk = false →
      (getInitialTokensRun st (.ok t) persistOk).1 = .error .exchangeFailed) := by
  cases persistOk <;>
    simp [refreshTokenRun, getInitialTokensRun, _saveTokens, hrt]

/-- Concrete instance of `token_persist_before_return`: the idle session
with refresh token `R1` refreshing to `A2`/`R2` with a healthy token
file. -/
theorem token_persist_before_return_witness :
    (refreshTokenRun c5State (.ok c5NewTokens) true).1 = .ok (some "A2") ∧
    (refreshTokenRun c5State (.ok c5NewTokens) true).2.tokens = some c5NewTokens := by
  have h := token_persist_before_return c5State c5NewTokens true (by decide)
  exact ⟨h.2.2.1 rfl, h.2.1⟩

theorem retryLoop_const_transient {α : Type} (method : HttpMethod) (e : STError)
    (he : retryCondition method e = true)
    (transport : Nat → Except STError α) (h : ∀ n, transport n = .error e) :
    ∀ (fuel attempt : Nat),
      retryLoop method transport attempt fuel
        = (.error e, fuel + 1, (List.range' attempt fuel).map retryDelay) := by
  intro fuel
  induction fuel with
  | zero => intro attempt; simp [retryLoop, h]
  | succ f ih =>
    intro attempt
    simp [retryLoop, h, he, ih, List.range']

theorem retryLoop_nontransient {α : Type} (method : HttpMethod)
    (transport : Nat → Except STError α) (a f : Nat) (e : STError)
    (h : transport a = .error e) (hnt : retryCondition method e = false) :
    retryLoop method transport a f = (.error e, 1, []) := by
  cases f with
  | zero => simp [retryLoop, h]
  | succ f => simp [retryLoop, h, hnt]

/-- Claim C7 counterexample: not every network-level error is retried.
A request that times out (axios rejects with no response and the code
`ECONNABORTED`; this client configures `timeout: 10000`) fails the
configured retry condition for every method - `isNetworkError` excludes
`ECONNABORTED` explicitly, `isRetryableError` repeats the exclusion,
and a no-response error has no status for the 429/5xx disjuncts - so a
timed-out GET surfaces its error after a single request, with no retry
and no backoff delay, falsifying the claim's "network-level errors ...
are retried". -/
theorem timeout_not_retried :
    retryCondition .get (.networkError (some "ECONNABORTED")) = false ∧
    retryCondition .post (.networkError (some "ECONNABORTED")) = false ∧
    clientRequest .get
        (fun _ => (.error (.networkError (some "ECONNABORTED")) : Except STError Unit))
      = (.error (.networkError (some "ECONNABORTED")), 1, []) := by
  refine ⟨by decide, by decide, ?_⟩
  exact retryLoop_nontransient .get _ 1 3 _ rfl (by decide)

/-- Claim C7 (amended): responses the configured condition classifies as
transient are retried with delay `n * 1000` for the `n`-th retry, up to
the configured 3 retry attempts, after which the error surfaces; HTTP
429 and HTTP 5xx always count as transient, so an always-503 transport
yields exactly the 3 configured retry attempts - 4 requests - with
delays 1000, 2000, 3000; a no-response (network-level) error counts
only when `axios-retry.isNetworkOrIdempotentRequestError` accepts it: a
timeout (`ECONNABORTED`) is never retried for any method, and on a
non-idempotent request (POST, as `sendCommand` issues) a cancellation,
a code-less error, or a deny-listed code such as `ENOTFOUND` is not
retried either, while an ordinary network error such as `ECONNRESET`
is retried; non-transient, non-authorization responses (4xx other than
429, in particular all of 4xx except 401/429) propagate immediately
with a single request and no retry.  Conjuncts: (1) any transport
always failing with a transient error exhausts exactly the retry
budget with the backoff delays; (2) 429/5xx are transient; (3)
timeouts never are; (4) the POST/network-code classification; (5) 4xx
other than 429 are not transient; (6) a first response failing a
non-transient check surfaces immediately. -/
theorem bounded_retry_with_backoff :
    (∀ (method : HttpMethod) (e : STError) (transport : Nat → Except STError Unit),
      retryCondition method e = true → (∀ n, transport n = .error e) →
      clientRequest method transport
        = (.error e, 4, [retryDelay 1, retryDelay 2, retryDelay 3])) ∧
    (∀ (method : HttpMethod) (s : Nat), s = 429 ∨ (500 ≤ s ∧ s < 600) →
      retryCondition method (.httpStatus s) = true) ∧
    (∀ method : HttpMethod,
      retryCondition method (.networkError (some "ECONNABORTED")) = false) ∧
    (retryCondition .post (.networkError (some "ERR_CANCELED")) = false ∧
      retryCondition .post (.networkError none) = false ∧
      retryCondition .post (.networkError (some "ENOTFOUND")) = false ∧
      retryCondition .post (.networkError (some "ECONNRESET")) = true ∧
      retryCondition .get (.networkError (some "ECONNRESET")) = true) ∧
    (∀ (method : HttpMethod) (s : Nat), 400 ≤ s → s < 500 → s ≠ 429 →
      retryCondition method (.httpStatus s) = false) ∧
    (∀ (method : HttpMethod) (e : STError) (transport : Nat → Except STError Unit),
      transport 1 = .error e → retryCondition method e = false →
      clientRequest method transport = (.error e, 1, [])) := by
  refine ⟨?_, ?_, ?_, ?_, ?_, ?_⟩
  · intro method e transport he h
    rw [clientRequest, retryLoop_const_transient method e he transport h]
    rfl
  · intro method s hs
    have hd : decide (s = 429 ∨ (500 ≤ s ∧ s < 600)) = true := by
      simpa using hs
    simp [retryCondition, hd]
  · intro method
    cases method <;> decide
  · exact ⟨by decide, by decide, by decide, by decide, by decide⟩
  · intro method s h4 h5 h429
    have h1 : decide (s = 429 ∨ (500 ≤ s ∧ s < 600)) = false := by
      simp only [decide_eq_false_iff_not]
      omega
    have h2 : decide (500 ≤ s ∧ s < 600) = false := by
      simp only [decide_eq_false_iff_not]
      omega
    cases method <;>
      simp [retryCondition, isNetworkOrIdempotentRequestError, isNetworkError,
        isIdempotentRequestError, isRetryableError, idempotentMethods, h1, h2]
  · intro method e transport htr hnt
    rw [clientRequest, retryLoop_nontransient method transport 1 3 _ htr hnt]

/-- Concrete instances of `bounded_retry_with_backoff`: an always-503
GET exhausts the 3 retries over 4 requests with delays 1000, 2000,
3000; a 404 GET and a timed-out POST each propagate at once. -/
theorem bounded_retry_with_backoff_witness :
    clientRequest .get (fun _ => (.error (.httpStatus 503) : Except STError Unit))
      = (.error (.httpStatus 503), 4, [1000, 2000, 3000]) ∧
    clientRequest .get (fun _ => (.error (.httpStatus 404) : Except STError Unit))
      = (.error (.httpStatus 404), 1, []) ∧
    clientRequest .post
        (fun _ => (.error (.networkError (some "ECONNABORTED")) : Except STError Unit))
      = (.error (.networkError (some "ECONNABORTED")), 1, []) := by
  refine ⟨?_, ?_, ?_⟩
  · have h := bounded_retry_with_backoff.1 .get (.httpStatus 503)
      (fun _ => .error (.httpStatus 503)) (by decide) (fun _ => rfl)
    simpa [retryDelay] using h
  · exact bounded_retry_with_backoff.2.2.2.2.2 .get (.httpStatus 404)
      (fun _ => .error (.httpStatus 404)) rfl
      (bounded_retry_with_backoff.2.2.2.2.1 .get 404 (by decide) (by decide)
        (by decide))
  · exact bounded_retry_with_backoff.2.2.2.2.2 .post
      (.networkError (some "ECONNABORTED"))
      (fun _ => .error (.networkError (some "ECONNABORTED"))) rfl
      (bounded_retry_with_backoff.2.2.1 .post)

theorem burst401_refreshing :
    ∀ (ids : List Nat) (tk : Option Tokens) (pend : List Nat) (rc pa ac : Nat),
      burst401 ⟨tk, true, pend, rc, pa, ac⟩ ids
        = (ids.map (fun _ => InterceptAction.queued),
           ⟨tk, true, pend ++ ids, rc, pa, ac⟩) := by
  intro ids
  induction ids with
  | nil => intro tk pend rc pa ac; simp [burst401]
  | cons i rest ih =>
    intro tk pend rc pa ac
    simp [burst401, arrive401, onResponseError, ih, List.append_assoc]

/-- Claim C1: single-flight refresh.  For a burst of concurrent requests
that each receive a 401 while no refresh is in progress (and none was
retried before), the first caller becomes the sole refresher and every later
caller is queued - never a second outstanding refresh; the whole burst
causes exactly one refresh network call; and when the refresh settles,
every caller observes the same outcome: on success all are replayed
with the same new access token, on failure all are rejected with the
same refresh error. -/
theorem single_flight_refresh (st0 : AuthState) (first : Nat) (rest : List Nat)
    (t : Tokens) (e : STError) (persistOk : Bool)
    (h0 : st0.isRefreshing = false) (hq : st0.pendingRequests = [])
    (hrt : truthyStr (st0.tokens.bind Tokens.refresh_token) = true) :
    (burst401 st0 (first :: rest)).1
      = .becameRefresher :: rest.map (fun _ => InterceptAction.queued) ∧
    (burst401 st0 (first :: rest)).2.isRefreshing = true ∧
    (burst401 st0 (first :: rest)).2.pendingRequests = rest ∧
    (refresherContinue (burst401 st0 (first :: rest)).2 (.ok t) persistOk).2.2.refreshCalls
      = st0.refreshCalls + 1 ∧
    (refresherContinue (burst401 st0 (first :: rest)).2 (.error e) persistOk).2.2.refreshCalls
      = st0.refreshCalls + 1 ∧
    (persistOk = true →
      (refresherContinue (burst401 st0 (first :: rest)).2 (.ok t) persistOk).1
          = .ok t.access_token ∧
      (refresherContinue (burst401 st0 (first :: rest)).2 (.ok t) persistOk).2.1
          = rest.map (fun i => (i, Except.ok t.access_token))) ∧
    ((refresherContinue (burst401 st0 (first :: rest)).2 (.error e) persistOk).1
        = .error e ∧
      (refresherContinue (burst401 st0 (first :: rest)).2 (.error e) persistOk).2.1
        = rest.map (fun i => (i, Except.error e))) := by
  obtain ⟨tk, r, pend, rc, pa, ac⟩ := st0
  simp only at h0 hq hrt ⊢
  subst h0; subst hq
  have hb : burst401 ⟨tk, false, [], rc, pa, ac⟩ (first :: rest)
      = (.becameRefresher :: rest.map (fun _ => InterceptAction.queued),
         ⟨tk, true, rest, rc, pa, ac⟩) := by
    simp [burst401, arrive401, onResponseError, burst401_refreshing]
  rw [hb]
  cases persistOk <;>
    simp [refresherContinue, refreshTokenRun, _saveTokens, hrt]

/-- Concrete instance of `single_flight_refresh`: requests 1, 2, 3 hit
401 together; request 1 refreshes, 2 and 3 queue; on success all three
proceed with access token `A2`. -/
theorem single_flight_refresh_witness :
    (burst401 c1Start [1, 2, 3]).1
      = [InterceptAction.becameRefresher, .queued, .queued] ∧
    (refresherContinue (burst401 c1Start [1, 2, 3]).2
        (.ok ⟨some "A2", some "R2"⟩) true).1 = .ok (some "A2") ∧
    (refresherContinue (burst401 c1Start [1, 2, 3]).2
        (.ok ⟨some "A2", some "R2"⟩) true).2.1
      = [(2, Except.ok (some "A2")), (3, Except.ok (some "A2"))] := by
  have h := single_flight_refresh c1Start 1 [2, 3] ⟨some "A2", some "R2"⟩
    (.httpStatus 400) true rfl rfl (by decide)
  refine ⟨by simpa using h.1, by simpa using (h.2.2.2.2.2.1 rfl).1,
    by simpa using (h.2.2.2.2.2.1 rfl).2⟩

theorem find?_removeKey {V : Type} (k : String) (l : List (LRUEntry V)) :
    (removeKey k l).find? (fun e => e.key == k) = none := by
  induction l with
  | nil => rfl
  | cons e l ih =>
    by_cases h : e.key = k
    · simp [removeKey, List.filter_cons, h]
    · simp only [removeKey, List.filter_cons] at ih ⊢
      simp [List.find?_cons, h, ih]

theorem find?_none_get {V : Type} (c : LRU V) (k : String) (now : Nat)
    (h : c.entries.find? (fun e => e.key == k) = none) :
    c.get k now = (none, c) := by
  simp [LRU.get, h]

theorem get_none_find? {V : Type} (c : LRU V) (k : String) (now : Nat)
    (h : (c.get k now).1 = none) :
    ((c.get k now).2).entries.find? (fun e => e.key == k) = none := by
  cases hf : c.entries.find? (fun e => e.key == k) with
  | none => simp [LRU.get, hf]
  | some e =>
    by_cases hs : now - e.start > c.ttl
    · simp [LRU.get, hf, hs, find?_removeKey]
    · simp [LRU.get, hf, hs] at h

theorem get_delete {V : Type} (c : LRU V) (k : String) (now : Nat) :
    (c.delete k).get k now = (none, c.delete k) := by
  apply find?_none_get
  simp [LRU.delete, find?_removeKey]

theorem filter_bne_self_of_not_mem (id : String) (l : List String)
    (h : id ∉ l) : l.filter (fun x => x != id) = l := by
  refine List.filter_eq_self.mpr ?_
  intro a ha
  simp only [bne_iff_ne, ne_eq]
  intro hc
  exact h (hc ▸ ha)

theorem statusBurst_joined (id : String) (now : Nat) :
    ∀ (n : Nat) (st : FetchState),
      st.cache.entries.find? (fun e => e.key == ("status-" ++ id)) = none →
      id ∈ st.statusPromises →
      statusBurst st id now n = (List.replicate n .joined, st) := by
  intro n
  induction n with
  | zero => intro st _ _; simp [statusBurst]
  | succ n ih =>
    intro st h1 h2
    have harr : getStatusArrive st id now = (.joined, st) := by
      simp [getStatusArrive, find?_none_get st.cache _ now h1, h2]
    simp [statusBurst, harr, ih st h1 h2, List.replicate]

/-- Claim C2: single-flight status fetch.  For a burst of concurrent
`getStatus(id)` calls arriving while no non-expired cache entry and no
in-flight fetch exist for `id`, the first caller issues the one network
fetch and registers it, every later caller joins that registered
promise (`fetchCalls` grows by exactly one); every caller receives the
settlement of that single fetch - on success the identical snapshot
`extractMain body` for all of them; the `statusPromises` entry for `id`
is removed when the fetch completes, on success and failure alike, so
that a later call (here: after a failed fetch) starts a new fetch. -/
theorem single_flight_fetch (st0 : FetchState) (id : String) (now nowC now2 : Nat)
    (n : Nat) (resp : Except STError (Option RespBody))
    (hmiss : (st0.cache.get ("status-" ++ id) now).1 = none)
    (hnofl : id ∉ st0.statusPromises) :
    (statusBurst st0 id now (n + 1)).1 = .started :: List.replicate n .joined ∧
    (statusBurst st0 id now (n + 1)).2.fetchCalls = st0.fetchCalls + 1 ∧
    (burstResults st0 id now (n + 1) resp nowC).1
      = List.replicate (n + 1)
          (fetchComplete (statusBurst st0 id now (n + 1)).2 id resp nowC).1 ∧
    (burstResults st0 id now (n + 1) resp nowC).2.statusPromises = st0.statusPromises ∧
    (∀ body, resp = .ok body →
      (burstResults st0 id now (n + 1) resp nowC).1
        = List.replicate (n + 1) (Except.ok (extractMain body))) ∧
    (∀ e, resp = .error e →
      (getStatusArrive (burstResults st0 id now (n + 1) resp nowC).2 id now2).1
        = .started) := by
  obtain ⟨c0, sp0, fc0, cc0⟩ := st0
  simp only at hmiss hnofl
  have hfind1 : ((c0.get ("status-" ++ id) now).2).entries.find?
      (fun e => e.key == ("status-" ++ id)) = none :=
    get_none_find? _ _ _ hmiss
  have harr : getStatusArrive ⟨c0, sp0, fc0, cc0⟩ id now
      = (.started, ⟨(c0.get ("status-" ++ id) now).2, id :: sp0, fc0 + 1, cc0⟩) := by
    simp [getStatusArrive, hmiss, hnofl]
  have hburst : statusBurst ⟨c0, sp0, fc0, cc0⟩ id now (n + 1)
      = (.started :: List.replicate n .joined,
         ⟨(c0.get ("status-" ++ id) now).2, id :: sp0, fc0 + 1, cc0⟩) := by
    have hj := statusBurst_joined id now n
      ⟨(c0.get ("status-" ++ id) now).2, id :: sp0, fc0 + 1, cc0⟩ hfind1
      (by simp)
    simp [statusBurst, harr, hj]
  have hfilter : (id :: sp0).filter (fun x => x != id) = sp0 := by
    simpa [List.filter_cons] using filter_bne_self_of_not_mem id sp0 hnofl
  refine ⟨by rw [hburst], by rw [hburst], ?_, ?_, ?_, ?_⟩
  · simp [burstResults, hburst, List.map_replicate, List.replicate_succ]
  · rw [burstResults, hburst]
    cases resp <;> simp [fetchComplete, hfilter]
  · intro body hr
    subst hr
    simp [burstResults, hburst, List.map_replicate, fetchComplete,
      List.replicate_succ]
  · intro e hr
    subst hr
    simp [burstResults, hburst, fetchComplete, hfilter, getStatusArrive,
      find?_none_get _ _ now2 hfind1, hnofl]

/-- Concrete instance of `single_flight_fetch`: three concurrent
`getStatus "dev"` calls on an empty cache; one fetch, everyone gets the
snapshot of the response body. -/
theorem single_flight_fetch_witness :
    (statusBurst emptyFetchState "dev" 0 3).1
      = [FetchArrival.started, .joined, .joined] ∧
    (burstResults emptyFetchState "dev" 0 3
        (.ok (some ⟨some ⟨some [("switch", [])]⟩⟩)) 1).1
      = [Except.ok [("switch", [])], .ok [("switch", [])], .ok [("switch", [])]] := by
  have h := single_flight_fetch emptyFetchState "dev" 0 1 0 2
    (.ok (some ⟨some ⟨some [("switch", [])]⟩⟩)) (by decide) (by decide)
  refine ⟨by simpa using h.1, ?_⟩
  have h5 := h.2.2.2.2.1 (some ⟨some ⟨some [("switch", [])]⟩⟩) rfl
  simpa [extractMain] using h5

/-- Claim C6: `sendCommand(id, spec)` removes `id`'s cache entry before
issuing the POST.  On success the command call is issued and the entry
is gone; the deletion precedes the network call, observably: even a
failed command has already removed the entry; and a `getStatus(id)`
issued after the successful command (no fetch of `id` in flight) always
starts a fresh network fetch - whatever the deleted entry's age, so
even within the TTL - and can never return the pre-command cached
value. -/
theorem invalidate_before_command (st : FetchState) (id : String) (now now2 : Nat)
    (e : STError)
    (hnofl : id ∉ st.statusPromises) :
    (sendCommandRun st id (.ok ())).1 = .ok () ∧
    (sendCommandRun st id (.ok ())).2.commandCalls = st.commandCalls + 1 ∧
    ((sendCommandRun st id (.ok ())).2.cache.get ("status-" ++ id) now).1 = none ∧
    ((sendCommandRun st id (.error e)).2.cache.get ("status-" ++ id) now).1 = none ∧
    (getStatusArrive (sendCommandRun st id (.ok ())).2 id now2).1 = .started ∧
    (getStatusArrive (sendCommandRun st id (.ok ())).2 id now2).2.fetchCalls
      = st.fetchCalls + 1 := by
  refine ⟨rfl, rfl, ?_, ?_, ?_, ?_⟩
  · simp [sendCommandRun, get_delete]
  · simp [sendCommandRun, get_delete]
  · simp [sendCommandRun, getStatusArrive, get_delete, hnofl]
  · simp [sendCommandRun, getStatusArrive, get_delete, hnofl]

/-- Concrete instance of `invalidate_before_command`: a cache holding a
fresh snapshot for `dev` is invalidated by a successful command, and
the next read starts a network fetch. -/
theorem invalidate_before_command_witness :
    (sendCommandRun c6State "dev" (.ok ())).1 = .ok () ∧
    (getStatusArrive (sendCommandRun c6State "dev" (.ok ())).2 "dev" 1).1
      = .started := by
  have h := invalidate_before_command c6State "dev" 0 1 (.networkError none) (by decide)
  exact ⟨h.1, h.2.2.2.2.1⟩

theorem removeKey_length_lt {V : Type} (k : String) :
    ∀ (l : List (LRUEntry V)) (e : LRUEntry V),
      l.find? (fun x => x.key == k) = some e →
      (removeKey k l).length < l.length := by
  intro l
  induction l with
  | nil => intro e h; cases h
  | cons a l ih =>
    intro e h
    by_cases ha : a.key = k
    · have h1 : removeKey k (a :: l) = removeKey k l := by
        simp [removeKey, List.filter_cons, ha]
      have h2 : (removeKey k l).length ≤ l.length := by
        unfold removeKey
        exact List.length_filter_le _ _
      rw [h1, List.length_cons]
      omega
    · have hpa : (a.key == k) = false := by simp [ha]
      have h1 : removeKey k (a :: l) = a :: removeKey k l := by
        simp [removeKey, List.filter_cons, ha]
      have h3 : l.find? (fun x => x.key == k) = some e := by
        simpa [List.find?_cons, hpa] using h
      have h2 := ih e h3
      rw [h1, List.length_cons, List.length_cons]
      omega

theorem lru_get_stale_none {V : Type} (c : LRU V) (k : String) (now : Nat)
    (e : LRUEntry V) (hf : c.entries.find? (fun x => x.key == k) = some e)
    (hstale : now - e.start > c.ttl) :
    (c.get k now).1 = none := by
  simp [LRU.get, hf, hstale]

theorem lru_get_set_same {V : Type} (c : LRU V) (k : String) (v : V) (t : Nat)
    (hpos : 0 < c.max) :
    ((c.set k v t).get k t).1 = some v := by
  cases hm : c.max with
  | zero => omega
  | succ m =>
    have hent : (c.set k v t).entries
        = ⟨k, v, t⟩ :: (removeKey k c.entries).take m := by
      simp [LRU.set, hm]
    simp [LRU.get, hent, List.find?_cons]

set_option maxRecDepth 400000 in
set_option maxHeartbeats 2000000 in
/-- Claim C8 counterexample: the status cache (`max: 100`) does not
evict the oldest entry when the bound is exceeded - it evicts the
least-recently-used one.  Fill the cache with `status-0` ... `status-99`
written at times 0 ... 99, read `status-0` (the oldest entry, written at
time 0, before `status-1` at time 1), then insert the 101st key: the
cache evicts `status-1` while the strictly older `status-0` survives,
falsifying "evicting the oldest entry". -/
theorem lru_evicts_lru_not_oldest :
    c8Filled.entries.length = 100 ∧
    ((c8Touched.entries.find? (fun e => e.key == "status-0")).map LRUEntry.start
      = some 0) ∧
    ((c8Touched.entries.find? (fun e => e.key == "status-1")).map LRUEntry.start
      = some 1) ∧
    c8After.entries.length = 100 ∧
    (c8After.get "status-0" 102).1 = some [] ∧
    (c8After.get "status-1" 102).1 = none := by
  decide

/-- Claim C8 (amended): the status cache is created with `max: 100` and
`ttl: 5 * 1000`; a `get` never returns an entry whose age strictly
exceeds the TTL (the stale entry is dropped), so a `getStatus` issued
after the TTL has elapsed since the entry was written triggers a new
network fetch even if no write occurred; the entry count never exceeds
`max` (a `set` is capped at `max`, and `get`/`delete` never grow the
cache), and when an insertion into a full cache exceeds the bound, the
entry evicted is the least-recently-used one - not, in general, the
oldest. -/
theorem cache_ttl_and_capacity :
    initialCache.max = 100 ∧ initialCache.ttl = 5 * 1000 ∧
    (∀ (c : LRU Snapshot) (k : String) (now : Nat) (e : LRUEntry Snapshot),
      c.entries.find? (fun x => x.key == k) = some e → now - e.start > c.ttl →
      (c.get k now).1 = none) ∧
    (∀ (st : FetchState) (id : String) (now : Nat) (e : LRUEntry Snapshot),
      st.cache.entries.find? (fun x => x.key == ("status-" ++ id)) = some e →
      now - e.start > st.cache.ttl →
      id ∉ st.statusPromises →
      (getStatusArrive st id now).1 = .started ∧
      (getStatusArrive st id now).2.fetchCalls = st.fetchCalls + 1) ∧
    (∀ (c : LRU Snapshot) (k : String) (v : Snapshot) (now : Nat),
      (c.set k v now).entries.length ≤ c.max) ∧
    (∀ (c : LRU Snapshot) (k : String) (now : Nat),
      ((c.get k now).2).entries.length ≤ c.entries.length ∧
      (c.delete k).entries.length ≤ c.entries.length) ∧
    (∀ (c : LRU Snapshot) (k : String) (v : Snapshot) (now : Nat),
      c.entries.length = c.max → 0 < c.max → (∀ x ∈ c.entries, x.key ≠ k) →
      (c.set k v now).entries = ⟨k, v, now⟩ :: c.entries.dropLast) := by
  refine ⟨rfl, rfl, ?_, ?_, ?_, ?_, ?_⟩
  · intro c k now e hf hstale
    exact lru_get_stale_none c k now e hf hstale
  · intro st id now e hf hstale hnofl
    have hnone := lru_get_stale_none st.cache ("status-" ++ id) now e hf hstale
    constructor <;> simp [getStatusArrive, hnone, hnofl]
  · intro c k v now
    simp only [LRU.set, List.length_take]
    omega
  · intro c k now
    constructor
    · cases hf : c.entries.find? (fun e => e.key == k) with
      | none => simp [LRU.get, hf]
      | some e =>
        by_cases hs : now - e.start > c.ttl
        · simp only [LRU.get, hf, hs, if_true]
          exact List.length_filter_le _ _
        · simp only [LRU.get, hf, hs, if_false, List.length_cons]
          have := removeKey_length_lt k c.entries e hf
          omega
    · exact List.length_filter_le _ _
  · intro c k v now hfull hpos hfresh
    have hrk : removeKey k c.entries = c.entries :=
      List.filter_eq_self.mpr (fun x hx => by simp [hfresh x hx])
    cases hm : c.max with
    | zero => omega
    | succ m =>
      simp only [LRU.set, hrk, hm, List.take_succ_cons]
      rw [List.dropLast_eq_take]
      have : c.entries.length - 1 = m := by omega
      rw [this]

/-- Concrete instance of `cache_ttl_and_capacity` on a two-slot cache:
a stale entry reads back as `none`, a stale snapshot makes `getStatus`
fetch again, a `set` respects the bound, and the full-cache insertion
evicts the least-recently-used slot. -/
theorem cache_ttl_and_capacity_witness :
    (c8SmallCache.get "status-a" 6000).1 = none ∧
    (getStatusArrive ⟨c8SmallCache, [], 0, 0⟩ "a" 6000).1 = .started ∧
    (c8SmallCache.set "status-c" [] 7).entries.length ≤ 2 ∧
    (c8SmallCache.set "status-c" [] 7).entries
      = [⟨"status-c", [], 7⟩, ⟨"status-a", [], 1⟩] := by
  have h := cache_ttl_and_capacity
  refine ⟨h.2.2.1 c8SmallCache "status-a" 6000 ⟨"status-a", [], 1⟩
      (by decide) (by decide),
    (h.2.2.2.1 ⟨c8SmallCache, [], 0, 0⟩ "a" 6000 ⟨"status-a", [], 1⟩
      (by decide) (by decide) (by decide)).1,
    h.2.2.2.2.1 c8SmallCache "status-c" [] 7, ?_⟩
  have he := h.2.2.2.2.2.2 c8SmallCache "status-c" [] 7 (by decide) (by decide)
    (by decide)
  simpa using he

/-- Claim C9: `_getCap(deviceId, capability, attribute, def)` reads the
snapshot returned by `getStatus` and extracts
`(s[shortKey] || s[capability])?.[attribute]?.value`: when the
capability object (under its short key or its full key), the attribute
object, or the value is absent or null, the supplied default is
returned; when the nested value is present it is returned; the read is
total - it always produces either the extracted value or the default,
so a malformed or partial payload never makes it fail. -/
theorem read_attribute_defaults (s : Snapshot) (capability attr : String)
    (dflt v : JsVal) (o : CapObj) (a : AttrObj) :
    (((jsLookup s (shortKeyOf capability)).orElse
        (fun _ => jsLookup s capability)) = some o →
      jsLookup o attr = some a → a.value = some v →
      getCapFromSnapshot s capability attr dflt = v) ∧
    (jsLookup s (shortKeyOf capability) = none → jsLookup s capability = none →
      getCapFromSnapshot s capability attr dflt = dflt) ∧
    (((jsLookup s (shortKeyOf capability)).orElse
        (fun _ => jsLookup s capability)) = some o →
      jsLookup o attr = none →
      getCapFromSnapshot s capability attr dflt = dflt) ∧
    (((jsLookup s (shortKeyOf capability)).orElse
        (fun _ => jsLookup s capability)) = some o →
      jsLookup o attr = some a → a.value = none →
      getCapFromSnapshot s capability attr dflt = dflt) ∧
    (getCapFromSnapshot s capability attr dflt = dflt ∨
      ∃ (o2 : CapObj) (a2 : AttrObj) (v2 : JsVal),
        ((jsLookup s (shortKeyOf capability)).orElse
          (fun _ => jsLookup s capability)) = some o2 ∧
        jsLookup o2 attr = some a2 ∧ a2.value = some v2 ∧
        getCapFromSnapshot s capability attr dflt = v2) ∧
    (∀ (st st1 : FetchState) (id : String) (now : Nat)
        (pending : Except STError Snapshot)
        (resp : Except STError (Option RespBody)),
      getStatusRun st id now pending resp = (.ok s, st1) →
      _getCapRun st id now pending resp capability attr dflt
        = (.ok (getCapFromSnapshot s capability attr dflt), st1)) := by
  refine ⟨?_, ?_, ?_, ?_, ?_, ?_⟩
  · intro h1 h2 h3; simp [getCapFromSnapshot, h1, h2, h3]
  · intro h1 h2; simp [getCapFromSnapshot, h1, h2, Option.orElse]
  · intro h1 h2; simp [getCapFromSnapshot, h1, h2]
  · intro h1 h2 h3; simp [getCapFromSnapshot, h1, h2, h3]
  · cases h1 : ((jsLookup s (shortKeyOf capability)).orElse
        (fun _ => jsLookup s capability)) with
    | none => left; simp [getCapFromSnapshot, h1]
    | some o2 =>
      cases h2 : jsLookup o2 attr with
      | none => left; simp [getCapFromSnapshot, h1, h2]
      | some a2 =>
        cases h3 : a2.value with
        | none => left; simp [getCapFromSnapshot, h1, h2, h3]
        | some v2 =>
          right
          exact ⟨o2, a2, v2, rfl, h2, h3,
            by simp [getCapFromSnapshot, h1, h2, h3]⟩
  · intro st st1 id now pending resp h
    simp [_getCapRun, h]

/-- Concrete instance of `read_attribute_defaults`: a snapshot exposing
`autoCleaningMode` under its short key serves the namespaced capability
id, and a missing capability yields the default; `_getCap` on a cache
hit extracts from the cached snapshot. -/
theorem read_attribute_defaults_witness :
    getCapFromSnapshot c9Snapshot "custom.autoCleaningMode" "autoCleaningMode"
      (.str "off") = .str "on" ∧
    getCapFromSnapshot c9Snapshot "switch" "switch" (.str "off") = .str "off" ∧
    (_getCapRun c6State "dev" 0 (.ok []) (.ok none) "switch" "switch"
        (.str "off")).1 = .ok (.str "off") := by
  refine ⟨(read_attribute_defaults c9Snapshot "custom.autoCleaningMode"
      "autoCleaningMode" (.str "off") (.str "on")
      [("autoCleaningMode", ⟨some (.str "on")⟩)] ⟨some (.str "on")⟩).1
      (by decide) (by decide) rfl, ?_, ?_⟩
  · exact (read_attribute_defaults c9Snapshot "switch" "switch" (.str "off")
      (.str "off") [] ⟨none⟩).2.1 (by decide) (by decide)
  · have h := (read_attribute_defaults [("switch", [])] "switch" "switch"
      (.str "off") (.str "off") [] ⟨none⟩).2.2.2.2.2
      c6State c6State "dev" 0 (.ok []) (.ok none) (by decide)
    rw [h]
    rfl

/-- Claim C10: the snapshot `getStatus` returns and caches on success is
exactly `res.data?.components?.main || {}`: the `components.main`
sub-object of the body, with the empty object substituted when the
body, its `components`, or `components.main` is absent.  A success
response without that path therefore still succeeds, caches the empty
snapshot, and an attribute read on the empty snapshot yields the
supplied default rather than an error. -/
theorem status_snapshot_is_components_main (st : FetchState) (id : String)
    (now : Nat) (body : Option RespBody) (b : RespBody)
    (capability attr : String) (dflt : JsVal)
    (hpos : 0 < st.cache.max) :
    (fetchComplete st id (.ok body) now).1 = .ok (extractMain body) ∧
    ((fetchComplete st id (.ok body) now).2.cache.get ("status-" ++ id) now).1
      = some (extractMain body) ∧
    extractMain none = [] ∧
    (b.components = none → extractMain (some b) = []) ∧
    (∀ comps, b.components = some comps → comps.main = none →
      extractMain (some b) = []) ∧
    getCapFromSnapshot [] capability attr dflt = dflt := by
  refine ⟨rfl, ?_, rfl, ?_, ?_, ?_⟩
  · simpa [fetchComplete] using
      lru_get_set_same st.cache ("status-" ++ id) (extractMain body) now hpos
  · intro h; simp [extractMain, h]
  · intro comps h1 h2; simp [extractMain, h1, h2]
  · simp [getCapFromSnapshot, jsLookup, Option.orElse]

/-- Concrete instance of `status_snapshot_is_components_main`: a success
body with no `components` yields and caches the empty snapshot, and a
read on it returns the default. -/
theorem status_snapshot_witness :
    (fetchComplete emptyFetchState "dev" (.ok (some ⟨none⟩)) 0).1 = .ok [] ∧
    ((fetchComplete emptyFetchState "dev" (.ok (some ⟨none⟩)) 0).2.cache.get
        ("status-" ++ "dev") 0).1 = some [] ∧
    getCapFromSnapshot [] "switch" "switch" (.str "off") = .str "off" := by
  have h := status_snapshot_is_components_main emptyFetchState "dev" 0
    (some ⟨none⟩) ⟨none⟩ "switch" "switch" (.str "off") (by decide)
  exact ⟨h.1, h.2.1, h.2.2.2.2.2⟩

end SmartThingsAC
